import Mathlib

/-!
Verification of the youtube-builder-mvp job pipeline and per-scene generation
state machine.  The definitions below are a shallow embedding of the TypeScript
edge functions: the scene image-generation claim manager
(`claimSceneImageGeneration`, `runGenerate`), the job lifecycle operations
(start / restart / delete / retries), the stage-2 scene normalization and
repair logic of `runPipeline`, and the batch-continuation retry scheduler
(`runRetryInBackground`).  External effects (the OpenAI calls, storage uploads,
wall-clock time) are abstracted as explicit oracle parameters; database rows
are explicit records and conditional updates are modelled as the guarded pure
updates the supabase query filters denote.
-/

namespace YTG

/-- JavaScript string truthiness for nullable text columns: a value is truthy
iff it is present and non-empty (`null` and `''` are both falsy). -/
def optStrTruthy : Option String → Bool
  | none => false
  | some s => s ≠ ""

/-- Whitespace test used by the model of JavaScript `String.prototype.trim`. -/
def isWsChar (c : Char) : Bool := c = ' ' || c = '\t' || c = '\n' || c = '\r'

/-- Model of JavaScript `String.prototype.trim` (structural recursion so that
concrete witnesses evaluate in the kernel). -/
def jsTrim (s : String) : String :=
  String.mk (((s.data.dropWhile isWsChar).reverse.dropWhile isWsChar).reverse)

/-! ## Scene rows and the image-generation claim (trendstory-generate-scene-image)

`ytg_scenes` row fields relevant to image generation.  Timestamps are integers
(milliseconds); `rowId` is the primary key `id`, which is never modified by any
update in the source. -/

/-- Values of the `image_gen_status` column other than SQL `null`. -/
inductive GenStatus
  | generating
  | succeeded
  | failed
deriving DecidableEq, Repr

/-- A `ytg_scenes` row (the columns the scene-image functions read or write). -/
structure SceneRow where
  rowId : Nat
  imagePath : Option String := none
  imageUrl : Option String := none
  imagePrompt : Option String := none
  imageGenStatus : Option GenStatus := none
  imageGenRequestId : Option String := none
  imageGenStartedAt : Option Int := none
  imageGenError : Option String := none
deriving DecidableEq, Repr

/-- The claim-eligibility test of `claimSceneImageGeneration`:
`currentStatus === null || currentStatus !== 'GENERATING' ||
 (startedAt && new Date(startedAt) < new Date(staleBeforeIso))`. -/
def canClaim (row : SceneRow) (staleBefore : Int) : Bool :=
  (row.imageGenStatus == none) ||
  (row.imageGenStatus != some GenStatus.generating) ||
  (match row.imageGenStartedAt with
   | some t => decide (t < staleBefore)
   | none => false)

/-- The claim fields written by a successful claim: status `GENERATING`, the
caller's request id, the current timestamp, and a cleared error. -/
def claimedRow (row : SceneRow) (requestId : String) (now : Int) : SceneRow :=
  { row with
    imageGenStatus := some GenStatus.generating
    imageGenRequestId := some requestId
    imageGenStartedAt := some now
    imageGenError := none }

/-- The conditional-update step of `claimSceneImageGeneration`: the update is
keyed on `job_id`, `scene_id` and the previously read primary key `id`
(`.eq('id', check.data.id)`); it succeeds iff that key still matches, and the
caller observes `true` iff a row was updated (`upd.data.length > 0`). -/
def claimWrite (row : SceneRow) (snapshotRowId : Nat) (requestId : String)
    (now : Int) : Bool × SceneRow :=
  if row.rowId = snapshotRowId then (true, claimedRow row requestId now)
  else (false, row)

/-- `claimSceneImageGeneration` executed with no interleaved writer: read the
row, test `canClaim`, and conditionally update keyed on the read row id. -/
def claimSceneImageGeneration (row : SceneRow) (requestId : String)
    (staleBefore now : Int) : Bool × SceneRow :=
  let snapshot := row
  if canClaim snapshot staleBefore then
    claimWrite row snapshot.rowId requestId now
  else (false, row)

/-- Two `claimSceneImageGeneration` calls A and B interleaved as
read(A); read(B); conditional-update(A); conditional-update(B): both reads see
the same row, then each update runs against the state left by the previous
one.  Returns A's result, B's result and the final row. -/
def twoInterleavedClaims (row : SceneRow) (reqA reqB : String)
    (staleBefore nowA nowB : Int) : Bool × Bool × SceneRow :=
  let snapA := row
  let snapB := row
  let stepA :=
    if canClaim snapA staleBefore then claimWrite row snapA.rowId reqA nowA
    else (false, row)
  let stepB :=
    if canClaim snapB staleBefore then claimWrite stepA.2 snapB.rowId reqB nowB
    else (false, stepA.2)
  (stepA.1, stepB.1, stepB.2)

/-- The success-completion update of `runGenerate`: keyed on `job_id`,
`scene_id` and `image_gen_request_id = requestId`, so it applies only when the
stored request id still equals the completing request's id. -/
def completeSuccess (row : SceneRow) (requestId : String)
    (path url prompt : String) : SceneRow :=
  if row.imageGenRequestId = some requestId then
    { row with
      imagePath := some path
      imageUrl := some url
      imagePrompt := some prompt
      imageGenStatus := some GenStatus.succeeded
      imageGenError := none }
  else row

/-- The failure-completion update of `runGenerate`, gated on the same
`image_gen_request_id = requestId` filter. -/
def completeFailure (row : SceneRow) (requestId : String) (msg : String) :
    SceneRow :=
  if row.imageGenRequestId = some requestId then
    { row with
      imageGenStatus := some GenStatus.failed
      imageGenError := some msg }
  else row

/-- Status values of `GenerateSceneImageResponse.status`. -/
inductive GenerateStatus
  | queued
  | alreadyExists
  | inProgress
  | succeededResp
  | failedResp
deriving DecidableEq, Repr

/-- The response shape of the single-scene generation endpoint. -/
structure GenerateResponse where
  accepted : Bool
  status : GenerateStatus
  imageUrl : Option String := none
deriving DecidableEq, Repr

/-- Outcome of the abstracted image generation + upload: on success the
storage path, public URL and the prompt used; on failure the error message. -/
def GenOutcome := Except String (String × String × String)

/-- `runGenerate(jobId, sceneId, force)` over one scene row.  The OpenAI
image call and storage upload are abstracted by `gen`; `requestId` is the
freshly generated UUID and `now` the claim timestamp. -/
def runGenerate (row : SceneRow) (force : Bool) (requestId : String)
    (staleBefore now : Int) (gen : GenOutcome) : GenerateResponse × SceneRow :=
  if !force && optStrTruthy row.imageUrl then
    ({ accepted := true, status := GenerateStatus.alreadyExists
       imageUrl := row.imageUrl }, row)
  else
    let claim := claimSceneImageGeneration row requestId staleBefore now
    if !claim.1 then
      ({ accepted := false, status := GenerateStatus.inProgress }, claim.2)
    else
      match gen with
      | Except.ok (path, url, prompt) =>
          ({ accepted := true, status := GenerateStatus.succeededResp
             imageUrl := some url },
           completeSuccess claim.2 requestId path url prompt)
      | Except.error msg =>
          ({ accepted := true, status := GenerateStatus.failedResp },
           completeFailure claim.2 requestId msg)

/-! ## Job lifecycle (trendstory-jobs serve handler and runPipeline)

The `ytg_jobs` row, the restart reset, and the status writes performed by the
pipeline and the control endpoints, sequentialized at request granularity. -/

/-- The `ytg_jobs.status` column. -/
inductive JobStatus
  | queued
  | running
  | succeededJob
  | failedJob
deriving DecidableEq, Repr

/-- Whether a status is terminal. -/
def JobStatus.isTerminal : JobStatus → Bool
  | JobStatus.succeededJob => true
  | JobStatus.failedJob => true
  | _ => false

/-- A `ytg_jobs` row together with its child row counts (scenes and assets are
cascade-owned by the job). -/
structure JobRow where
  status : JobStatus
  autoconfig : Bool := false
  packager : Bool := false
  finalPackage : Bool := false
  error : Option String := none
  sceneRows : Nat := 0
  assetRows : Nat := 0
deriving DecidableEq, Repr

/-- Result of one pipeline execution, as seen at the job row: success, or
failure with the caught error message. -/
inductive PipelineOutcome
  | success
  | failure (msg : String)
deriving DecidableEq, Repr

/-- The request-level operations that touch a job row. -/
inductive JobOp
  | startNew (outcome : PipelineOutcome)
  | restart (outcome : PipelineOutcome)
  | deleteJob
  | retryImages
  | retryAudio
deriving DecidableEq, Repr

/-- The restart reset performed by the trendstory-jobs handler when
`payload.job_id` names an existing job: status back to `QUEUED`, the three
result slots (`autoconfig`, `packager`, `final_package`) and `error` cleared,
and the child scene/asset rows deleted.  The handler performs no check on the
job's current status. -/
def restartReset (j : JobRow) : JobRow :=
  { j with
    status := JobStatus.queued
    autoconfig := false
    packager := false
    finalPackage := false
    error := none
    sceneRows := 0
    assetRows := 0 }

/-- The terminal status written by the end of `runPipeline`. -/
def PipelineOutcome.finalStatus : PipelineOutcome → JobStatus
  | PipelineOutcome.success => JobStatus.succeededJob
  | PipelineOutcome.failure _ => JobStatus.failedJob

/-- The sequence of `status` values a job row takes during one operation,
starting from its current status.  `startNew` traces a freshly inserted row
(`QUEUED`, then `RUNNING`, then the terminal status); `restart` first resets
to `QUEUED` and then runs the same pipeline; delete and the image/audio
retries never write `status`. -/
def jobOpTrace (op : JobOp) (j : JobRow) : List JobStatus :=
  match op with
  | JobOp.startNew o =>
      [JobStatus.queued, JobStatus.running, o.finalStatus]
  | JobOp.restart o =>
      [j.status, JobStatus.queued, JobStatus.running, o.finalStatus]
  | JobOp.deleteJob => [j.status]
  | JobOp.retryImages => [j.status]
  | JobOp.retryAudio => [j.status]

/-- Adjacent pairs of a trace whose two statuses differ (the actual status
transitions; rewriting the same status is not a transition). -/
def transPairs : List JobStatus → List (JobStatus × JobStatus)
  | a :: b :: rest =>
      (if a ≠ b then [(a, b)] else []) ++ transPairs (b :: rest)
  | _ => []

/-- Whether `op` is an explicit restart. -/
def JobOp.isRestart : JobOp → Bool
  | JobOp.restart _ => true
  | _ => false

/-- The transition relation asserted by the claim: Queued→Running,
Running→{Succeeded,Failed}, or Terminal→Queued on an explicit restart. -/
def claimAllowedTrans (op : JobOp) (a b : JobStatus) : Bool :=
  (a = JobStatus.queued && b = JobStatus.running) ||
  (a = JobStatus.running &&
    (b = JobStatus.succeededJob || b = JobStatus.failedJob)) ||
  (op.isRestart && a.isTerminal && b = JobStatus.queued)

/-- The transition relation the code actually guarantees: Queued→Running,
Running→{Succeeded,Failed}, or S→Queued for ANY prior status S on an explicit
restart (the restart reset does not require the job to be terminal). -/
def codeAllowedTrans (op : JobOp) (a b : JobStatus) : Bool :=
  (a = JobStatus.queued && b = JobStatus.running) ||
  (a = JobStatus.running &&
    (b = JobStatus.succeededJob || b = JobStatus.failedJob)) ||
  (op.isRestart && b = JobStatus.queued)

/-! ## Stage 2: scene normalization, repair, and bulk insert (runPipeline)

`normalizeScenes` in the source:
slice to the target count, default a non-finite `scene_id` to position+1,
then sort ascending by `scene_id` (JavaScript `Array.prototype.sort` is
stable; modelled by stable insertion sort). -/

/-- `Number(x ?? dflt) || dflt`: absent (or NaN, modelled as `none`) and `0`
both fall back to the default. -/
def jsNumberOr (v : Option Int) (dflt : Int) : Int :=
  match v with
  | none => dflt
  | some x => if x = 0 then dflt else x

/-- `Math.max(1, Math.min(Number(autoconfig.scene_count ?? 6) || 6, 12))`. -/
def targetCountOf (sceneCount : Option Int) : Nat :=
  (max 1 (min (jsNumberOr sceneCount 6) 12)).toNat

/-- A scene object as produced by the stage-2 model output; `sceneId` is
`none` when `Number.isFinite(s?.scene_id)` is false. -/
structure RawScene where
  sceneId : Option Int := none
  narration : Option String := none
  onScreenText : Option String := none
  visualBrief : Option String := none
  mood : Option String := none
  durationSec : Option Int := none
deriving DecidableEq, Repr

/-- A scene after normalization: the index is always present. -/
structure NormScene where
  sceneId : Int
  narration : Option String := none
  onScreenText : Option String := none
  visualBrief : Option String := none
  mood : Option String := none
  durationSec : Option Int := none
deriving DecidableEq, Repr

/-- The `.map((s, i) => ({...s, scene_id: finite ? s.scene_id : i + 1}))`
step: keep a present index, default a missing one to its 0-based position
plus one. -/
def defaultSceneIds (l : List RawScene) : List NormScene :=
  l.enum.map fun p =>
    { sceneId := p.2.sceneId.getD (Int.ofNat p.1 + 1)
      narration := p.2.narration
      onScreenText := p.2.onScreenText
      visualBrief := p.2.visualBrief
      mood := p.2.mood
      durationSec := p.2.durationSec }

/-- Ordering used by the `.sort((a, b) => a.scene_id - b.scene_id)` step. -/
def sceneLE (a b : NormScene) : Prop := a.sceneId ≤ b.sceneId

instance : DecidableRel sceneLE := fun a b => Int.decLe a.sceneId b.sceneId

instance : IsTotal NormScene sceneLE :=
  ⟨fun a b => Int.le_total a.sceneId b.sceneId⟩

instance : IsTrans NormScene sceneLE :=
  ⟨fun _ _ _ hab hbc => le_trans hab hbc⟩

/-- `normalizeScenes` from `runPipeline`: truncate to `targetCount`, default
missing indices positionally, sort by index. -/
def normalizeScenes (tc : Nat) (scenes : List RawScene) : List NormScene :=
  List.insertionSort sceneLE (defaultSceneIds (scenes.take tc))

/-- The error thrown when the repaired output still has no scenes. -/
def emptyScenesError : String :=
  "Packager output is invalid: scenes is empty (after repair attempt)"

/-- Result of the stage-2 sanity check: how many repair requests were issued
and the validated scene list (or the fatal error). -/
structure Stage2Run where
  repairCalls : Nat
  scenes : Except String (List NormScene)
deriving Repr

/-- The stage-2 sanity check and repair of `runPipeline`: if the normalized
scene list is empty, issue exactly one repair call (`repaired` is the model
output of that call) and fail with `emptyScenesError` if the repaired list is
still empty.  A non-empty normalized list is used as-is, with no repair. -/
def runStage2Validation (tc : Nat) (first repaired : List RawScene) :
    Stage2Run :=
  let s1 := normalizeScenes tc first
  if s1.length = 0 then
    let s2 := normalizeScenes tc repaired
    if s2.length = 0 then ⟨1, Except.error emptyScenesError⟩
    else ⟨1, Except.ok s2⟩
  else ⟨0, Except.ok s1⟩

/-- A row of the bulk `ytg_scenes` insert that follows validation. -/
structure DbSceneInsert where
  jobId : String
  sceneId : Int
  narration : Option String
  onScreenText : Option String
  visualBrief : Option String
  mood : Option String
  durationSec : Option Int
  imagePrompt : Option String := none
  imagePath : Option String := none
  imageUrl : Option String := none
deriving DecidableEq, Repr

/-- The bulk insert payload built from the validated scene list (image fields
start as `null`). -/
def sceneInsertRows (jobId : String) (scenes : List NormScene) :
    List DbSceneInsert :=
  scenes.map fun s =>
    { jobId := jobId
      sceneId := s.sceneId
      narration := s.narration
      onScreenText := s.onScreenText
      visualBrief := s.visualBrief
      mood := s.mood
      durationSec := s.durationSec }

/-- The `type` column of `ytg_assets`. -/
inductive AssetType
  | image
  | audio
  | jsonMarker
deriving DecidableEq, Repr

/-- A row of a `ytg_assets` insert (meta abstracted away). -/
structure DbAssetInsert where
  jobId : String
  type : AssetType
  path : Option String := none
  url : Option String := none
deriving DecidableEq, Repr

/-- Stage-2 outcome at the job level: on validation failure the pipeline's
catch marks the job `FAILED` with the thrown message, and — since the throw
happens before the scene bulk-insert and before every asset insert of the
later stages (per-scene TTS audio and the json marker) — no scene row and no
asset row is inserted; otherwise the pipeline continues (still `RUNNING`)
with the scene rows inserted from the validated list and the asset rows the
later stages produce for it (abstracted by `laterAssets`). -/
def stage2JobResult (tc : Nat) (first repaired : List RawScene)
    (jobId : String) (laterAssets : List NormScene → List DbAssetInsert) :
    JobStatus × Option String × List DbSceneInsert × List DbAssetInsert :=
  match (runStage2Validation tc first repaired).scenes with
  | Except.ok ns =>
      (JobStatus.running, none, sceneInsertRows jobId ns, laterAssets ns)
  | Except.error m => (JobStatus.failedJob, some m, [], [])

/-! ## Batch continuation retry (trendstory-retry-images)

`runRetryInBackground` processes the task list sequentially; before each
iteration it compares the elapsed wall-clock time against the runtime budget
and, on exhaustion, stops and re-invokes the endpoint with the remaining
scene ids and `depth + 1`, provided `depth < maxDepth`.  Wall-clock time is
abstracted by a per-iteration duration oracle `dur`; the elapsed time before
iteration `idx` is the sum of the durations of iterations `0..idx-1`. -/

/-- A work item of the batch retry: the scene id (absent models a non-finite
`Number(t.scene_id)`) and the prompt. -/
structure RetryTask where
  sceneId : Option Int := none
  prompt : String := ""
deriving DecidableEq, Repr

/-- Number of loop iterations executed before the budget check
`Date.now() - startedAt > maxRuntimeMs` fires, given `rem` items left,
starting at iteration `idx` with `elapsed` time spent so far. -/
def consumedFrom (dur : Nat → Nat) (budget : Nat) :
    Nat → Nat → Nat → Nat
  | 0, _, _ => 0
  | rem + 1, idx, elapsed =>
    if elapsed > budget then 0
    else 1 + consumedFrom dur budget rem (idx + 1) (elapsed + dur idx)

/-- Number of items one invocation consumes from a list of `n` tasks. -/
def consumed (dur : Nat → Nat) (budget n : Nat) : Nat :=
  consumedFrom dur budget n 0 0

/-- Result of one `runRetryInBackground` invocation: the processed prefix,
the unprocessed remainder, and whether a continuation request was issued. -/
structure SliceRun where
  processed : List RetryTask
  remaining : List RetryTask
  requeue : Bool
deriving DecidableEq, Repr

/-- One `runRetryInBackground` invocation: process a prefix bounded by the
time budget; requeue the remainder with `depth + 1` iff items remain and
`depth < maxDepth`. -/
def runRetryInBackground (dur : Nat → Nat) (budget maxDepth depth : Nat)
    (tasks : List RetryTask) : SliceRun :=
  let k := consumed dur budget tasks.length
  { processed := tasks.take k
    remaining := tasks.drop k
    requeue := decide ((tasks.drop k) ≠ []) && decide (depth < maxDepth) }

/-- The budget check cannot fire before the first iteration (elapsed time is
zero), so a non-empty list always has at least one item consumed. -/
theorem consumed_pos (dur : Nat → Nat) (budget n : Nat) (hn : 0 < n) :
    0 < consumed dur budget n := by
  cases n with
  | zero => exact absurd hn (lt_irrefl 0)
  | succ m =>
      simp only [consumed, consumedFrom]
      split
      · omega
      · omega

/-- At most `n` items are consumed. -/
theorem consumedFrom_le (dur : Nat → Nat) (budget : Nat) :
    ∀ rem idx elapsed, consumedFrom dur budget rem idx elapsed ≤ rem := by
  intro rem
  induction rem with
  | zero => intro idx elapsed; simp [consumedFrom]
  | succ m ih =>
      intro idx elapsed
      simp only [consumedFrom]
      split
      · omega
      · have := ih (idx + 1) (elapsed + dur idx)
        omega

/-- `Math.max(5000, Math.min(Number(env ?? '50000') || 50000, 110000))`. -/
def retryMaxRuntimeMs (env : Option Int) : Int :=
  max 5000 (min (jsNumberOr env 50000) 110000)

/-- `Math.max(0, Math.min(Number(env ?? '10') || 10, 30))`. -/
def retryMaxDepth (env : Option Int) : Int :=
  max 0 (min (jsNumberOr env 10) 30)

/-! ## RetryImages request handling (task selection and immediate response) -/

/-- The scene-row columns the retry-images selection reads. -/
structure RetrySceneRow where
  sceneId : Int
  imagePrompt : Option String := none
  imageUrl : Option String := none
  visualBrief : Option String := none
  mood : Option String := none
  onScreenText : Option String := none
deriving DecidableEq, Repr

/-- The style-guide fields the prompt fallback reads. -/
structure StyleGuide where
  visualStyle : Option String := none
  tone : Option String := none
deriving DecidableEq, Repr

/-- `String(o ?? '').trim()`. -/
def optTrim (o : Option String) : String := jsTrim (o.getD "")

/-- JavaScript `a || b` on strings: the empty string falls through. -/
def jsOrElse (a b : String) : String := if a = "" then b else a

/-- The bracketed prompt fallback: head part (visual brief, else on-screen
text, else a topic phrase), then mood, style fields and the fixed suffix,
dropping empty parts and joining with a comma. -/
def fallbackPrompt (topic : String) (style : StyleGuide) (s : RetrySceneRow) :
    String :=
  let head := jsOrElse (optTrim s.visualBrief)
    (jsOrElse (optTrim s.onScreenText)
      ("educational illustration about " ++ topic))
  let parts := [head, optTrim s.mood, optTrim style.visualStyle,
    optTrim style.tone,
    "no text, no logo, no watermark, clean composition, high quality, 16:9"]
  jsTrim (String.intercalate ", " (parts.filter (· ≠ "")))

/-- The prompt chosen for a scene: its stored `image_prompt`, else the
packager's render-request prompt for that scene id, else the fallback. -/
def derivePrompt (topic : String) (style : StyleGuide)
    (renderPrompt : Option String) (s : RetrySceneRow) : String :=
  jsOrElse (optTrim s.imagePrompt)
    (jsOrElse (jsTrim (renderPrompt.getD "")) (fallbackPrompt topic style s))

/-- The `promptByScene` map built from `packager.image_render_requests`: only
entries with a finite scene id and a non-empty trimmed prompt are stored, and
a later entry for the same id overwrites an earlier one. -/
def promptByScene (reqs : List (Option Int × String)) (sid : Int) :
    Option String :=
  reqs.foldl
    (fun acc r =>
      match r.1 with
      | some k =>
          if k = sid ∧ jsTrim r.2 ≠ "" then some (jsTrim r.2) else acc
      | none => acc)
    none

/-- Accumulator of the task-selection loop. -/
structure SelectResult where
  tasks : List RetryTask
  skipped : Nat
deriving DecidableEq, Repr

/-- The task-selection loop of the retry-images handler: skip scenes outside
the requested id set, scenes that already have an image when `missingOnly`,
and scenes with an empty derived prompt; the rest become work items. -/
def selectTasks (topic : String) (style : StyleGuide)
    (renderPrompts : Int → Option String) (wantSet : Option (List Int))
    (missingOnly : Bool) (scenes : List RetrySceneRow) : SelectResult :=
  scenes.foldl
    (fun acc s =>
      let notWanted := match wantSet with
        | some ws => decide (s.sceneId ∉ ws)
        | none => false
      if notWanted then { acc with skipped := acc.skipped + 1 }
      else if missingOnly && optStrTruthy s.imageUrl then
        { acc with skipped := acc.skipped + 1 }
      else
        let prompt := derivePrompt topic style (renderPrompts s.sceneId) s
        if prompt = "" then { acc with skipped := acc.skipped + 1 }
        else { acc with
          tasks := acc.tasks ++ [{ sceneId := some s.sceneId
                                   prompt := prompt }] })
    ⟨[], 0⟩

/-- The `RetryImagesResponse` body. -/
structure RetryImagesResponse where
  attempted : Nat
  succeeded : Nat
  failed : Nat
  skipped : Nat
  accepted : Bool
deriving DecidableEq, Repr

/-- The retry-images serve handler after JSON parsing: validate `job_id`,
select the work list, kick off the background run (whose outcome depends on
the duration oracle and depth limits), and immediately respond 202 with
`attempted = tasks.length` and zero succeeded/failed counters. -/
def retryImagesHandler (jobIdRaw topic : String) (style : StyleGuide)
    (renderPrompts : Int → Option String) (sceneIdsReq : Option (List Int))
    (missingOnlyReq : Option Bool) (scenes : List RetrySceneRow)
    (dur : Nat → Nat) (budget maxDepth depth : Nat) :
    Except (String × Nat) (RetryImagesResponse × Nat × SliceRun) :=
  if jsTrim jobIdRaw = "" then Except.error ("job_id is required", 400)
  else
    let missingOnly := missingOnlyReq ≠ some false
    let sel := selectTasks topic style renderPrompts sceneIdsReq missingOnly
      scenes
    let bg := runRetryInBackground dur budget maxDepth depth sel.tasks
    Except.ok
      ({ attempted := sel.tasks.length, succeeded := 0, failed := 0
         skipped := sel.skipped, accepted := true }, 202, bg)

/-! ## The self-requeue continuation chain (trendstory-retry-images)

The source's background run, on budget exhaustion, re-invokes the same
endpoint with `scene_ids` set to the remainder's finite scene ids,
`missing_only` hard-coded to `true`, and `depth + 1`, provided
`depth < maxDepth`.  The continuation is a fresh request: it re-derives its
work list from the scene table via the same selection loop, so the chain is
modelled over the scene-table state, which successful generations mutate. -/

/-- The work item the selection loop pushes for one eligible scene row. -/
def taskOfScene (topic : String) (style : StyleGuide)
    (renderPrompts : Int → Option String) (s : RetrySceneRow) : RetryTask :=
  { sceneId := some s.sceneId
    prompt := derivePrompt topic style (renderPrompts s.sceneId) s }

/-- The selection condition of the task-selection loop, as one predicate:
the scene is in the requested id set (when one is given), is not skipped by
`missingOnly` over an existing image, and derives a non-empty prompt. -/
def eligibleScene (topic : String) (style : StyleGuide)
    (renderPrompts : Int → Option String) (wantSet : Option (List Int))
    (missingOnly : Bool) (s : RetrySceneRow) : Bool :=
  !(match wantSet with
    | some ws => decide (s.sceneId ∉ ws)
    | none => false) &&
  !(missingOnly && optStrTruthy s.imageUrl) &&
  decide (derivePrompt topic style (renderPrompts s.sceneId) s ≠ "")

/-- The scene-row effect of processing one task: when the task is valid and
its generation succeeds, the rows matching its scene id receive the public
URL and the prompt (the source also writes `image_path`, a column outside the
selected projection modelled here); a failed or invalid item changes
nothing.  `genUrl` abstracts the storage public URL. -/
def applyGenTask (success : Int → Bool) (genUrl : Int → String)
    (scenes : List RetrySceneRow) (t : RetryTask) : List RetrySceneRow :=
  match t.sceneId with
  | some sid =>
      if jsTrim t.prompt ≠ "" ∧ success sid = true then
        scenes.map fun s =>
          if s.sceneId = sid then
            { s with imageUrl := some (genUrl sid)
                     imagePrompt := some (jsTrim t.prompt) }
          else s
      else scenes
  | none => scenes

/-- The scene-table state after a slice has processed `tasks` in order. -/
def applyGen (success : Int → Bool) (genUrl : Int → String)
    (scenes : List RetrySceneRow) (tasks : List RetryTask) :
    List RetrySceneRow :=
  tasks.foldl (applyGenTask success genUrl) scenes

/-- The per-row function `applyGenTask` applies to every scene row. -/
def genUpdateOne (success : Int → Bool) (genUrl : Int → String)
    (t : RetryTask) (s : RetrySceneRow) : RetrySceneRow :=
  match t.sceneId with
  | some sid =>
      if jsTrim t.prompt ≠ "" ∧ success sid = true then
        if s.sceneId = sid then
          { s with imageUrl := some (genUrl sid)
                   imagePrompt := some (jsTrim t.prompt) }
        else s
      else s
  | none => s

/-- The per-row function `applyGen` applies to every scene row. -/
def genUpdate (success : Int → Bool) (genUrl : Int → String)
    (tasks : List RetryTask) (s : RetrySceneRow) : RetrySceneRow :=
  tasks.foldl (fun s t => genUpdateOne success genUrl t s) s

/-- Result of a whole continuation chain: the items processed across the
chain in order, the final invocation's unprocessed remainder (as tasks and
as the requeued scene-id list), its depth, and the final scene table. -/
structure ChainRun where
  processed : List RetryTask
  remTasks : List RetryTask
  remIds : List Int
  finalDepth : Nat
  finalScenes : List RetrySceneRow
deriving DecidableEq, Repr

/-- The continuation chain, by recursion on the remaining depth budget
(`fuel`); the wrapper below instantiates `fuel := maxDepth - depth`, so the
`fuel = 0` case is exactly the situation `maxDepth ≤ depth`, where the
source's requeue guard `depth < maxDepth` already forbids a continuation.
Each invocation selects its work list from the current scene table, processes
a prefix bounded by the time budget (durations from `dur depth`), applies the
successful generations to the table, and requeues the remainder's finite
scene ids with `missingOnly` forced to `true` and `depth + 1` iff the
remainder id list is non-empty and `depth < maxDepth`. -/
def runRetrySelfRequeueAux (success : Nat → Int → Bool)
    (genUrl : Int → String) (dur : Nat → Nat → Nat) (budget maxDepth : Nat)
    (topic : String) (style : StyleGuide)
    (renderPrompts : Int → Option String) :
    Nat → Nat → Option (List Int) → Bool → List RetrySceneRow → ChainRun
  | 0, depth, wantSet, missingOnly, scenes =>
      let sel := selectTasks topic style renderPrompts wantSet missingOnly
        scenes
      let k := consumed (dur depth) budget sel.tasks.length
      { processed := sel.tasks.take k
        remTasks := sel.tasks.drop k
        remIds := (sel.tasks.drop k).filterMap RetryTask.sceneId
        finalDepth := depth
        finalScenes :=
          applyGen (success depth) genUrl scenes (sel.tasks.take k) }
  | fuel + 1, depth, wantSet, missingOnly, scenes =>
      let sel := selectTasks topic style renderPrompts wantSet missingOnly
        scenes
      let k := consumed (dur depth) budget sel.tasks.length
      if (sel.tasks.drop k).filterMap RetryTask.sceneId ≠ [] ∧
          depth < maxDepth then
        let next := runRetrySelfRequeueAux success genUrl dur budget maxDepth
          topic style renderPrompts fuel (depth + 1)
          (some ((sel.tasks.drop k).filterMap RetryTask.sceneId)) true
          (applyGen (success depth) genUrl scenes (sel.tasks.take k))
        { processed := sel.tasks.take k ++ next.processed
          remTasks := next.remTasks
          remIds := next.remIds
          finalDepth := next.finalDepth
          finalScenes := next.finalScenes }
      else
        { processed := sel.tasks.take k
          remTasks := sel.tasks.drop k
          remIds := (sel.tasks.drop k).filterMap RetryTask.sceneId
          finalDepth := depth
          finalScenes :=
            applyGen (success depth) genUrl scenes (sel.tasks.take k) }

/-- The continuation chain started by one request at `depth`, with the
request's `scene_ids` filter and `missing_only` flag, over a scene table. -/
def runRetrySelfRequeue (success : Nat → Int → Bool) (genUrl : Int → String)
    (dur : Nat → Nat → Nat) (budget maxDepth : Nat) (topic : String)
    (style : StyleGuide) (renderPrompts : Int → Option String) (depth : Nat)
    (wantSet : Option (List Int)) (missingOnly : Bool)
    (scenes : List RetrySceneRow) : ChainRun :=
  runRetrySelfRequeueAux success genUrl dur budget maxDepth topic style
    renderPrompts (maxDepth - depth) depth wantSet missingOnly scenes

/-! ## DeleteJob (trendstory-delete-job) -/

/-- The durable store: job ids, and scene/asset rows keyed by job id. -/
structure Store where
  jobs : List String
  scenes : List (String × Nat)
  assets : List (String × Nat)
deriving DecidableEq, Repr

/-- The best-effort storage cleanup, abstracted by whether it fails. -/
def deleteStorageObjects (storageFails : Bool) : Except String Unit :=
  if storageFails then Except.error "storage cleanup failed" else Except.ok ()

/-- Deleting the `ytg_jobs` row cascades to its scene and asset rows. -/
def deleteJobRow (st : Store) (jobId : String) : Store :=
  { jobs := st.jobs.filter (· ≠ jobId)
    scenes := st.scenes.filter (·.1 ≠ jobId)
    assets := st.assets.filter (·.1 ≠ jobId) }

/-- `runDeleteJob`: storage cleanup first, inside a catch-all that ignores its
failure, then the row deletion, which runs in either case. -/
def runDeleteJob (st : Store) (jobId : String) (storageFails : Bool) : Store :=
  match deleteStorageObjects storageFails with
  | Except.ok _ => deleteJobRow st jobId
  | Except.error _ => deleteJobRow st jobId

/-- The delete-job response body. -/
structure DeleteJobResponse where
  jobId : String
  accepted : Bool
deriving DecidableEq, Repr

/-- The delete-job serve handler after JSON parsing: reject an empty (after
trim) `job_id` with 400; otherwise answer 202 `accepted` immediately — the
store is only touched by the background deletion, never consulted before
responding. -/
def deleteJobHandler (jobIdRaw : String) (st : Store) (storageFails : Bool) :
    Except (String × Nat) (DeleteJobResponse × Nat × Store) :=
  if jsTrim jobIdRaw = "" then Except.error ("job_id is required", 400)
  else
    Except.ok ({ jobId := jsTrim jobIdRaw, accepted := true }, 202,
      runDeleteJob st (jsTrim jobIdRaw) storageFails)

/-! ## Theorems -/

/-- The eligibility test succeeds exactly when the prior status is null, or is
not `GENERATING`, or is `GENERATING` with a start timestamp strictly older
than the staleness cutoff. -/
theorem canClaim_iff (row : SceneRow) (staleBefore : Int) :
    canClaim row staleBefore = true ↔
      (row.imageGenStatus = none ∨
        row.imageGenStatus ≠ some GenStatus.generating ∨
        (row.imageGenStatus = some GenStatus.generating ∧
          ∃ t, row.imageGenStartedAt = some t ∧ t < staleBefore)) := by
  cases hS : row.imageGenStatus with
  | none => simp [canClaim, hS]
  | some gs =>
      cases gs with
      | generating =>
          cases hT : row.imageGenStartedAt with
          | none => simp [canClaim, hS, hT]
          | some t => simp [canClaim, hS, hT]
      | succeeded => simp [canClaim, hS]
      | failed => simp [canClaim, hS]

/-- C2: a single (non-interleaved) `claimSceneImageGeneration` call returns
`true` — writing status `GENERATING`, the given request id and the current
timestamp — iff the prior status is null, or not `GENERATING`, or
`GENERATING` with a timestamp older than `staleBefore`; otherwise it returns
`false` and leaves the row unchanged. -/
theorem claim_single_call_correct (row : SceneRow) (requestId : String)
    (staleBefore now : Int) :
    ((claimSceneImageGeneration row requestId staleBefore now).1 = true ↔
      (row.imageGenStatus = none ∨
        row.imageGenStatus ≠ some GenStatus.generating ∨
        (row.imageGenStatus = some GenStatus.generating ∧
          ∃ t, row.imageGenStartedAt = some t ∧ t < staleBefore))) ∧
    ((claimSceneImageGeneration row requestId staleBefore now).1 = true →
      (claimSceneImageGeneration row requestId staleBefore now).2 =
        claimedRow row requestId now) ∧
    ((claimSceneImageGeneration row requestId staleBefore now).1 = false →
      (claimSceneImageGeneration row requestId staleBefore now).2 = row) := by
  have hrun : claimSceneImageGeneration row requestId staleBefore now =
      if canClaim row staleBefore then (true, claimedRow row requestId now)
      else (false, row) := by
    unfold claimSceneImageGeneration claimWrite
    by_cases h : canClaim row staleBefore <;> simp [h]
  refine ⟨?_, ?_, ?_⟩
  · rw [hrun]
    by_cases h : canClaim row staleBefore
    · simp [h, (canClaim_iff row staleBefore).mp h]
    · simp only [if_neg h]
      constructor
      · intro hfalse; exact absurd hfalse (by simp)
      · intro hcond
        exact absurd ((canClaim_iff row staleBefore).mpr hcond) h
  · rw [hrun]
    by_cases h : canClaim row staleBefore <;> simp [h]
  · rw [hrun]
    by_cases h : canClaim row staleBefore <;> simp [h]

/-- Witness for C2 at a concrete stale `GENERATING` row. -/
theorem claim_single_call_correct_witness :
    (claimSceneImageGeneration
        { rowId := 7, imageGenStatus := some GenStatus.generating
          imageGenRequestId := some "old-req"
          imageGenStartedAt := some 50 } "new-req" 100 200).2 =
      claimedRow
        { rowId := 7, imageGenStatus := some GenStatus.generating
          imageGenRequestId := some "old-req"
          imageGenStartedAt := some 50 } "new-req" 200 :=
  (claim_single_call_correct
    { rowId := 7, imageGenStatus := some GenStatus.generating
      imageGenRequestId := some "old-req"
      imageGenStartedAt := some 50 } "new-req" 100 200).2.1 (by decide)

/-- C1 (failing run): two claim attempts on an unclaimed scene, interleaved as
read A, read B, conditional update A, conditional update B, BOTH observe
`true`, because the conditional update re-checks only the row primary key,
which no claim write ever changes.  The claimed at-most-one-winner property
does not hold. -/
theorem claim_interleaved_both_true :
    (twoInterleavedClaims { rowId := 1 } "req-A" "req-B" 1000 2000 2001).1
        = true ∧
    (twoInterleavedClaims { rowId := 1 } "req-A" "req-B" 1000 2000 2001).2.1
        = true := by
  constructor <;> rfl

/-- C3: a completion (success or failure) whose request id no longer matches
the stored `image_gen_request_id` is a no-op on the scene row. -/
theorem completion_mismatch_noop (row : SceneRow)
    (requestId path url prompt msg : String)
    (h : row.imageGenRequestId ≠ some requestId) :
    completeSuccess row requestId path url prompt = row ∧
    completeFailure row requestId msg = row := by
  unfold completeSuccess completeFailure
  rw [if_neg h, if_neg h]
  exact ⟨rfl, rfl⟩

/-- Witness for C3: a row claimed by a newer request is untouched by a stale
completion. -/
theorem completion_mismatch_noop_witness :
    completeSuccess
        { rowId := 3, imageGenStatus := some GenStatus.generating
          imageGenRequestId := some "newer-req" } "stale-req" "p" "u" "pr" =
      { rowId := 3, imageGenStatus := some GenStatus.generating
        imageGenRequestId := some "newer-req" } ∧
    completeFailure
        { rowId := 3, imageGenStatus := some GenStatus.generating
          imageGenRequestId := some "newer-req" } "stale-req" "boom" =
      { rowId := 3, imageGenStatus := some GenStatus.generating
        imageGenRequestId := some "newer-req" } :=
  completion_mismatch_noop
    { rowId := 3, imageGenStatus := some GenStatus.generating
      imageGenRequestId := some "newer-req" } "stale-req" "p" "u" "pr" "boom"
    (by decide)

/-- C8: `runGenerate` with `force = false` on a scene whose image URL is
already present returns `ALREADY_EXISTS` carrying that URL and leaves the row
unchanged: no claim is taken and no generation outcome is consulted. -/
theorem generate_already_exists (row : SceneRow) (requestId : String)
    (staleBefore now : Int) (gen : GenOutcome) (u : String)
    (hurl : row.imageUrl = some u) (hne : u ≠ "") :
    (runGenerate row false requestId staleBefore now gen).1 =
      { accepted := true, status := GenerateStatus.alreadyExists
        imageUrl := some u } ∧
    (runGenerate row false requestId staleBefore now gen).2 = row := by
  unfold runGenerate
  simp [optStrTruthy, hurl, hne]

/-- Witness for C8 with a concrete image-bearing row and a generation oracle
that would fail if it were consulted. -/
theorem generate_already_exists_witness :
    (runGenerate { rowId := 9, imageUrl := some "https://img/9.png" } false
        "req-x" 100 200 (Except.error "would fail")).1 =
      { accepted := true, status := GenerateStatus.alreadyExists
        imageUrl := some "https://img/9.png" } ∧
    (runGenerate { rowId := 9, imageUrl := some "https://img/9.png" } false
        "req-x" 100 200 (Except.error "would fail")).2 =
      { rowId := 9, imageUrl := some "https://img/9.png" } :=
  generate_already_exists { rowId := 9, imageUrl := some "https://img/9.png" }
    "req-x" 100 200 (Except.error "would fail") "https://img/9.png"
    (by decide) (by decide)

/-- C4 counterexample: the restart handler resets a job whose status is
`RUNNING` (it performs no terminal-status check), producing the transition
Running→Queued, which the claimed transition relation does not allow. -/
theorem restart_running_violates_claimed_transitions :
    ¬ (∀ p ∈ transPairs (jobOpTrace (JobOp.restart PipelineOutcome.success)
          { status := JobStatus.running }),
        claimAllowedTrans (JobOp.restart PipelineOutcome.success) p.1 p.2
          = true) := by
  intro h
  have hmem : (JobStatus.running, JobStatus.queued) ∈
      transPairs (jobOpTrace (JobOp.restart PipelineOutcome.success)
        { status := JobStatus.running }) := by decide
  have := h (JobStatus.running, JobStatus.queued) hmem
  simp [claimAllowedTrans, JobOp.isRestart, JobStatus.isTerminal] at this

/-- C4 amended: every status transition of every operation follows
Queued→Running→{Succeeded,Failed}, or S→Queued for an arbitrary prior status
S on an explicit restart; no non-restart operation ever produces
Succeeded→Running; and the restart reset returns the job to `QUEUED`, clears
the three result slots and the error, and deletes the child scene/asset
rows. -/
theorem job_transitions_amended (op : JobOp) (j : JobRow) :
    (∀ p ∈ transPairs (jobOpTrace op j), codeAllowedTrans op p.1 p.2 = true) ∧
    (op.isRestart = false →
      (JobStatus.succeededJob, JobStatus.running) ∉
        transPairs (jobOpTrace op j)) ∧
    restartReset j =
      { status := JobStatus.queued, autoconfig := false, packager := false
        finalPackage := false, error := none, sceneRows := 0
        assetRows := 0 } := by
  refine ⟨?_, ?_, rfl⟩
  · cases op with
    | startNew o =>
        cases o <;>
          simp [jobOpTrace, transPairs, codeAllowedTrans,
            PipelineOutcome.finalStatus, JobOp.isRestart]
    | restart o =>
        cases o <;> cases hs : j.status <;>
          simp [jobOpTrace, transPairs, codeAllowedTrans,
            PipelineOutcome.finalStatus, JobOp.isRestart, hs]
    | deleteJob => simp [jobOpTrace, transPairs]
    | retryImages => simp [jobOpTrace, transPairs]
    | retryAudio => simp [jobOpTrace, transPairs]
  · intro hop
    cases op with
    | startNew o =>
        cases o <;>
          simp [jobOpTrace, transPairs, PipelineOutcome.finalStatus]
    | restart o => simp [JobOp.isRestart] at hop
    | deleteJob => simp [jobOpTrace, transPairs]
    | retryImages => simp [jobOpTrace, transPairs]
    | retryAudio => simp [jobOpTrace, transPairs]

/-- Witness for C4 (amended): the Running→Queued restart transition is in
the amended relation, and the restart reset clears a concrete full row. -/
theorem job_transitions_amended_witness :
    codeAllowedTrans (JobOp.restart PipelineOutcome.success)
        JobStatus.running JobStatus.queued = true ∧
    restartReset { status := JobStatus.running, autoconfig := true,
                   packager := true, finalPackage := true, error := some "e",
                   sceneRows := 6, assetRows := 4 } =
      { status := JobStatus.queued, autoconfig := false, packager := false
        finalPackage := false, error := none, sceneRows := 0
        assetRows := 0 } :=
  ⟨(job_transitions_amended (JobOp.restart PipelineOutcome.success)
      { status := JobStatus.running }).1
      (JobStatus.running, JobStatus.queued) (by decide),
   (job_transitions_amended (JobOp.restart PipelineOutcome.success)
      { status := JobStatus.running, autoconfig := true, packager := true,
        finalPackage := true, error := some "e", sceneRows := 6,
        assetRows := 4 }).2.2⟩

/-- C5 counterexample: a stage-2 output with a single well-formed scene is
short of the configured count of 6, yet the pipeline issues no repair
request — the repair fires only when the normalized list is empty. -/
theorem stage2_short_list_no_repair :
    (normalizeScenes (targetCountOf (some 6))
        [{ sceneId := some 1, narration := some "intro",
           onScreenText := some "t", visualBrief := some "v",
           mood := some "m", durationSec := some 30 }]).length <
      targetCountOf (some 6) ∧
    (runStage2Validation (targetCountOf (some 6))
        [{ sceneId := some 1, narration := some "intro",
           onScreenText := some "t", visualBrief := some "v",
           mood := some "m", durationSec := some 30 }] []).repairCalls
      = 0 := by
  constructor
  · decide
  · rfl

/-- C5 amended: the repair fires exactly when the normalized scene list is
empty, at most one repair is ever issued, and when the repaired output is
still empty the job ends `FAILED` with the empty-scenes error and neither
scene rows nor asset rows are inserted, whatever the later stages would have
produced. -/
theorem stage2_empty_repair_policy (tc : Nat) (first repaired : List RawScene)
    (jobId : String) (laterAssets : List NormScene → List DbAssetInsert) :
    (normalizeScenes tc first ≠ [] →
      (runStage2Validation tc first repaired).repairCalls = 0) ∧
    (normalizeScenes tc first = [] →
      (runStage2Validation tc first repaired).repairCalls = 1) ∧
    (runStage2Validation tc first repaired).repairCalls ≤ 1 ∧
    (normalizeScenes tc first = [] → normalizeScenes tc repaired = [] →
      stage2JobResult tc first repaired jobId laterAssets =
        (JobStatus.failedJob, some emptyScenesError, [], [])) := by
  unfold stage2JobResult runStage2Validation
  by_cases h1 : (normalizeScenes tc first).length = 0
  · have h1e : normalizeScenes tc first = [] := List.length_eq_zero.mp h1
    by_cases h2 : (normalizeScenes tc repaired).length = 0
    · simp [h1, h2, h1e]
    · have h2e : normalizeScenes tc repaired ≠ [] := by
        intro hc; exact h2 (by simp [hc])
      simp [h1, h2, h1e, h2e]
  · have h1e : normalizeScenes tc first ≠ [] := by
      intro hc; exact h1 (by simp [hc])
    simp [h1, h1e]

/-- Witness for C5 (amended): both stage-2 outputs empty gives exactly one
repair call, a `FAILED` job carrying the empty-scenes message, and no scene
or asset rows inserted, even with later stages that would insert an audio
asset and the json marker for every validated scene list. -/
theorem stage2_empty_repair_policy_witness :
    (runStage2Validation 6 [] []).repairCalls = 1 ∧
    stage2JobResult 6 [] [] "job-1"
        (fun ns =>
          ns.map (fun s =>
            { jobId := "job-1", type := AssetType.audio
              path := some ("tts-" ++ toString s.sceneId) }) ++
          [{ jobId := "job-1", type := AssetType.jsonMarker }]) =
      (JobStatus.failedJob, some emptyScenesError, [], []) :=
  ⟨(stage2_empty_repair_policy 6 [] [] "job-1"
      (fun ns =>
        ns.map (fun s =>
          { jobId := "job-1", type := AssetType.audio
            path := some ("tts-" ++ toString s.sceneId) }) ++
        [{ jobId := "job-1", type := AssetType.jsonMarker }])).2.1 rfl,
   (stage2_empty_repair_policy 6 [] [] "job-1"
      (fun ns =>
        ns.map (fun s =>
          { jobId := "job-1", type := AssetType.audio
            path := some ("tts-" ++ toString s.sceneId) }) ++
        [{ jobId := "job-1", type := AssetType.jsonMarker }])).2.2.2 rfl rfl⟩

/-- C6 counterexample: two scenes arriving with the duplicated index 1 are
inserted with indices [1, 1] — duplicated indices are NOT re-indexed to
1..N. -/
theorem insert_duplicate_ids_not_reindexed :
    ((sceneInsertRows "job-1"
        (normalizeScenes 2 [{ sceneId := some 1 }, { sceneId := some 1 }])).map
        (fun r => r.sceneId)) = [1, 1] ∧
    ((sceneInsertRows "job-1"
        (normalizeScenes 2 [{ sceneId := some 1 }, { sceneId := some 1 }])).map
        (fun r => r.sceneId)) ≠ [1, 2] := by
  constructor
  · rfl
  · decide

/-- C6 amended: the normalized list is sorted by scene index; it is a
permutation of the truncated input with missing indices defaulted to
position+1 (duplicates kept as-is); and the bulk insert preserves the
validated list's count and fields, every inserted row carrying a numeric
index and the job id. -/
theorem stage2_insert_normalized (tc : Nat) (scenes : List RawScene)
    (jobId : String) :
    List.Pairwise sceneLE (normalizeScenes tc scenes) ∧
    (normalizeScenes tc scenes).Perm (defaultSceneIds (scenes.take tc)) ∧
    (normalizeScenes tc scenes).length = min tc scenes.length ∧
    (sceneInsertRows jobId (normalizeScenes tc scenes)).length =
      (normalizeScenes tc scenes).length ∧
    (sceneInsertRows jobId (normalizeScenes tc scenes)).map
        (fun r => (r.sceneId, r.narration, r.onScreenText, r.visualBrief,
          r.mood, r.durationSec)) =
      (normalizeScenes tc scenes).map
        (fun s => (s.sceneId, s.narration, s.onScreenText, s.visualBrief,
          s.mood, s.durationSec)) ∧
    (∀ r ∈ sceneInsertRows jobId (normalizeScenes tc scenes),
      r.jobId = jobId) := by
  refine ⟨?_, ?_, ?_, ?_, ?_, ?_⟩
  · exact List.sorted_insertionSort sceneLE _
  · exact List.perm_insertionSort sceneLE _
  · calc (normalizeScenes tc scenes).length
        = (defaultSceneIds (scenes.take tc)).length :=
          (List.perm_insertionSort sceneLE _).length_eq
      _ = (scenes.take tc).length := by simp [defaultSceneIds]
      _ = min tc scenes.length := List.length_take tc scenes
  · simp [sceneInsertRows]
  · simp [sceneInsertRows]
  · intro r hr
    simp only [sceneInsertRows, List.mem_map] at hr
    obtain ⟨s, _, hrs⟩ := hr
    rw [← hrs]

/-- Witness for C6 (amended): a concrete inserted row of a concrete
normalized list carries the given job id. -/
theorem stage2_insert_normalized_witness :
    ({ jobId := "job-2", sceneId := 2, narration := none,
       onScreenText := none, visualBrief := none, mood := none,
       durationSec := none } : DbSceneInsert).jobId = "job-2" :=
  (stage2_insert_normalized 3 [{ sceneId := some 2 }, { sceneId := none }]
    "job-2").2.2.2.2.2
    { jobId := "job-2", sceneId := 2, narration := none, onScreenText := none,
      visualBrief := none, mood := none, durationSec := none } (by decide)

/-- A fold whose step appends the items produced by one row accumulates the
items of the eligible rows in order. -/
theorem foldl_select_spec {f : SelectResult → RetrySceneRow → SelectResult}
    (p : RetrySceneRow → Bool) (g : RetrySceneRow → RetryTask)
    (hstep : ∀ acc s, (f acc s).tasks =
      acc.tasks ++ if p s then [g s] else []) :
    ∀ (scenes : List RetrySceneRow) (acc : SelectResult),
      (List.foldl f acc scenes).tasks =
        acc.tasks ++ (scenes.filter p).map g := by
  intro scenes
  induction scenes with
  | nil => intro acc; simp
  | cons s rest ih =>
      intro acc
      rw [List.foldl_cons, ih, hstep]
      by_cases hp : p s = true <;> simp [hp, List.filter_cons]

/-- The task list of the selection loop is the eligible rows, in table order,
each mapped to its work item. -/
theorem selectTasks_tasks_eq (topic : String) (style : StyleGuide)
    (renderPrompts : Int → Option String) (wantSet : Option (List Int))
    (missingOnly : Bool) (scenes : List RetrySceneRow) :
    (selectTasks topic style renderPrompts wantSet missingOnly scenes).tasks =
      (scenes.filter
        (eligibleScene topic style renderPrompts wantSet missingOnly)).map
        (taskOfScene topic style renderPrompts) := by
  unfold selectTasks
  refine (foldl_select_spec
    (eligibleScene topic style renderPrompts wantSet missingOnly)
    (taskOfScene topic style renderPrompts) ?_ scenes ⟨[], 0⟩).trans
    (by simp)
  intro acc s
  dsimp only
  rcases wantSet with _ | ws
  · by_cases h2 : (missingOnly && optStrTruthy s.imageUrl) = true
    · simp [h2, eligibleScene]
    · by_cases h3 :
          derivePrompt topic style (renderPrompts s.sceneId) s = ""
      · simp [h2, h3, eligibleScene]
      · simp [h2, h3, eligibleScene, taskOfScene]
  · by_cases h1 : s.sceneId ∈ ws
    · by_cases h2 : (missingOnly && optStrTruthy s.imageUrl) = true
      · simp [h1, h2, eligibleScene]
      · by_cases h3 :
            derivePrompt topic style (renderPrompts s.sceneId) s = ""
        · simp [h1, h2, h3, eligibleScene]
        · simp [h1, h2, h3, eligibleScene, taskOfScene]
    · simp [h1, eligibleScene]

/-- `applyGenTask` is a map of the per-row update over the table. -/
theorem applyGenTask_eq_map (success : Int → Bool) (genUrl : Int → String)
    (scenes : List RetrySceneRow) (t : RetryTask) :
    applyGenTask success genUrl scenes t =
      scenes.map (genUpdateOne success genUrl t) := by
  unfold applyGenTask genUpdateOne
  cases t.sceneId with
  | none => simp
  | some sid =>
      by_cases hgen : jsTrim t.prompt ≠ "" ∧ success sid = true <;>
        simp [hgen]

/-- `applyGen` is a map of the composed per-row update over the table. -/
theorem applyGen_eq_map (success : Int → Bool) (genUrl : Int → String) :
    ∀ (tasks : List RetryTask) (scenes : List RetrySceneRow),
      applyGen success genUrl scenes tasks =
        scenes.map (genUpdate success genUrl tasks) := by
  intro tasks
  induction tasks with
  | nil =>
      intro scenes
      calc applyGen success genUrl scenes [] = scenes := rfl
        _ = scenes.map (fun s => s) := (List.map_id' scenes).symm
        _ = scenes.map (genUpdate success genUrl []) :=
          List.map_congr_left fun s _ => rfl
  | cons t ts ih =>
      intro scenes
      have h1 : applyGen success genUrl scenes (t :: ts) =
          applyGen success genUrl (applyGenTask success genUrl scenes t) ts :=
        rfl
      rw [h1, ih, applyGenTask_eq_map, List.map_map]
      exact List.map_congr_left fun s _ => rfl

/-- The per-row update never changes a row's scene id. -/
theorem genUpdateOne_sceneId (success : Int → Bool) (genUrl : Int → String)
    (t : RetryTask) (s : RetrySceneRow) :
    (genUpdateOne success genUrl t s).sceneId = s.sceneId := by
  unfold genUpdateOne
  cases t.sceneId with
  | none => rfl
  | some sid =>
      by_cases hgen : jsTrim t.prompt ≠ "" ∧ success sid = true <;>
        by_cases hs : s.sceneId = sid <;> simp [hgen, hs]

/-- The composed per-row update never changes a row's scene id. -/
theorem genUpdate_sceneId (success : Int → Bool) (genUrl : Int → String) :
    ∀ (tasks : List RetryTask) (s : RetrySceneRow),
      (genUpdate success genUrl tasks s).sceneId = s.sceneId := by
  intro tasks
  induction tasks with
  | nil => intro s; rfl
  | cons t ts ih =>
      intro s
      have h1 : genUpdate success genUrl (t :: ts) s =
          genUpdate success genUrl ts (genUpdateOne success genUrl t s) := rfl
      rw [h1, ih, genUpdateOne_sceneId]

/-- A row whose scene id is hit by none of the processed tasks is untouched. -/
theorem genUpdate_eq_of_not_mem (success : Int → Bool) (genUrl : Int → String) :
    ∀ (tasks : List RetryTask) (s : RetrySceneRow),
      s.sceneId ∉ tasks.filterMap RetryTask.sceneId →
      genUpdate success genUrl tasks s = s := by
  intro tasks
  induction tasks with
  | nil => intro s _; rfl
  | cons t ts ih =>
      intro s hs
      have h1 : genUpdate success genUrl (t :: ts) s =
          genUpdate success genUrl ts (genUpdateOne success genUrl t s) := rfl
      have hone : genUpdateOne success genUrl t s = s := by
        unfold genUpdateOne
        cases ht : t.sceneId with
        | none => rfl
        | some sid =>
            have hne : s.sceneId ≠ sid := by
              intro hc
              apply hs
              simp [List.filterMap_cons, ht, hc]
            by_cases hgen : jsTrim t.prompt ≠ "" ∧ success sid = true <;>
              simp [hgen, hne]
      rw [h1, hone]
      apply ih
      intro hc
      apply hs
      cases ht : t.sceneId with
      | none => simpa [List.filterMap_cons, ht] using hc
      | some sid => simp [List.filterMap_cons, ht, hc]

/-- Scene ids of the table are preserved by a slice's generation writes. -/
theorem applyGen_map_sceneId (success : Int → Bool) (genUrl : Int → String)
    (scenes : List RetrySceneRow) (tasks : List RetryTask) :
    (applyGen success genUrl scenes tasks).map RetrySceneRow.sceneId =
      scenes.map RetrySceneRow.sceneId := by
  rw [applyGen_eq_map, List.map_map]
  exact List.map_congr_left fun s _ => genUpdate_sceneId success genUrl tasks s

/-- Filtering a duplicate-free list by membership in one of its sublists
recovers exactly that sublist. -/
theorem filter_mem_of_sublist {α : Type} [DecidableEq α] :
    ∀ {l₁ l₂ : List α}, l₁.Sublist l₂ → l₂.Nodup →
      l₂.filter (fun x => decide (x ∈ l₁)) = l₁
  | _, _, List.Sublist.slnil, _ => rfl
  | l₁, _, @List.Sublist.cons _ _ l₂ a h, hnd => by
      have hna : a ∉ l₂ := (List.nodup_cons.mp hnd).1
      have hnal : a ∉ l₁ := fun hc => hna (h.subset hc)
      rw [List.filter_cons]
      simp only [hnal, decide_False, Bool.false_eq_true, if_false]
      exact filter_mem_of_sublist h (List.nodup_cons.mp hnd).2
  | _, _, @List.Sublist.cons₂ _ l₁ l₂ a h, hnd => by
      have hna : a ∉ l₂ := (List.nodup_cons.mp hnd).1
      rw [List.filter_cons, if_pos (by simp)]
      have hcongr : l₂.filter (fun x => decide (x ∈ a :: l₁)) =
          l₂.filter (fun x => decide (x ∈ l₁)) := by
        apply List.filter_congr
        intro x hx
        have hxa : x ≠ a := fun hc => hna (hc ▸ hx)
        simp [List.mem_cons, hxa]
      rw [hcongr, filter_mem_of_sublist h (List.nodup_cons.mp hnd).2]

/-- Re-filtering the updated table by the remainder rows' ids with
`missingOnly = true` recovers exactly the remainder rows, provided the table
has duplicate-free scene ids, the update fixes the remainder rows and
preserves every id, and the remainder rows are still eligible. -/
theorem rebuild_filter_eq (topic : String) (style : StyleGuide)
    (renderPrompts : Int → Option String) (F : RetrySceneRow → RetrySceneRow)
    (R env : List RetrySceneRow)
    (hFid : ∀ s, (F s).sceneId = s.sceneId)
    (hRsub : R.Sublist env)
    (hnd : (env.map RetrySceneRow.sceneId).Nodup)
    (hRfix : ∀ r ∈ R, F r = r)
    (hRelig : ∀ r ∈ R, eligibleScene topic style renderPrompts
      (some (R.map RetrySceneRow.sceneId)) true r = true) :
    (env.map F).filter (eligibleScene topic style renderPrompts
      (some (R.map RetrySceneRow.sceneId)) true) = R := by
  rw [List.filter_map]
  have hcong : env.filter ((eligibleScene topic style renderPrompts
      (some (R.map RetrySceneRow.sceneId)) true) ∘ F) =
      env.filter (fun s => decide (s ∈ R)) := by
    apply List.filter_congr
    intro s hs
    by_cases hsR : s ∈ R
    · have hfix := hRfix s hsR
      simp only [Function.comp_apply, hfix]
      simp [hRelig s hsR, hsR]
    · have hid : (F s).sceneId = s.sceneId := hFid s
      have hnotin : s.sceneId ∉ R.map RetrySceneRow.sceneId := by
        intro hc
        rcases List.mem_map.mp hc with ⟨r, hrR, hr⟩
        have heq : s = r :=
          List.inj_on_of_nodup_map hnd hs (hRsub.subset hrR) hr.symm
        exact hsR (heq ▸ hrR)
      simp [eligibleScene, Function.comp, hid, hnotin, hsR]
  rw [hcong, filter_mem_of_sublist hRsub
    (List.Nodup.of_map RetrySceneRow.sceneId hnd)]
  exact (List.map_congr_left hRfix).trans (List.map_id' R)

/-- The requeue boundary identity: after a slice over a duplicate-free scene
table selected with `missingOnly = true`, re-selecting with the remainder's
scene ids and `missingOnly = true` over the post-generation table rebuilds
exactly the unprocessed remainder. -/
theorem rebuild_tasks_eq (topic : String) (style : StyleGuide)
    (renderPrompts : Int → Option String) (success : Int → Bool)
    (genUrl : Int → String) (wantSet : Option (List Int))
    (env : List RetrySceneRow) (k : Nat)
    (hnd : (env.map RetrySceneRow.sceneId).Nodup) :
    (selectTasks topic style renderPrompts
        (some (((selectTasks topic style renderPrompts wantSet true
          env).tasks.drop k).filterMap RetryTask.sceneId)) true
        (applyGen success genUrl env
          ((selectTasks topic style renderPrompts wantSet true
            env).tasks.take k))).tasks =
      (selectTasks topic style renderPrompts wantSet true env).tasks.drop k
      := by
  have hcomp : RetryTask.sceneId ∘ taskOfScene topic style renderPrompts =
      some ∘ RetrySceneRow.sceneId := rfl
  have hselW := selectTasks_tasks_eq topic style renderPrompts wantSet true env
  have htake : (selectTasks topic style renderPrompts wantSet true
      env).tasks.take k =
      ((env.filter (eligibleScene topic style renderPrompts wantSet
        true)).take k).map (taskOfScene topic style renderPrompts) := by
    rw [hselW, List.map_take]
  have hdrop : (selectTasks topic style renderPrompts wantSet true
      env).tasks.drop k =
      ((env.filter (eligibleScene topic style renderPrompts wantSet
        true)).drop k).map (taskOfScene topic style renderPrompts) := by
    rw [hselW, List.map_drop]
  have hremIds : ((selectTasks topic style renderPrompts wantSet true
      env).tasks.drop k).filterMap RetryTask.sceneId =
      ((env.filter (eligibleScene topic style renderPrompts wantSet
        true)).drop k).map RetrySceneRow.sceneId := by
    rw [hdrop, List.filterMap_map, hcomp, List.filterMap_eq_map]
  have henv : applyGen success genUrl env
      ((selectTasks topic style renderPrompts wantSet true
        env).tasks.take k) =
      env.map (genUpdate success genUrl
        (((env.filter (eligibleScene topic style renderPrompts wantSet
          true)).take k).map (taskOfScene topic style renderPrompts))) := by
    rw [htake, applyGen_eq_map]
  -- the remainder rows, as a sublist of the table
  have hLsub : (env.filter (eligibleScene topic style renderPrompts wantSet
      true)).Sublist env := List.filter_sublist env
  have hRsub : ((env.filter (eligibleScene topic style renderPrompts wantSet
      true)).drop k).Sublist env :=
    (List.drop_sublist k _).trans hLsub
  have hndL : ((env.filter (eligibleScene topic style renderPrompts wantSet
      true)).map RetrySceneRow.sceneId).Nodup :=
    List.Nodup.sublist (List.Sublist.map RetrySceneRow.sceneId hLsub) hnd
  have hdisj : ∀ r ∈ (env.filter (eligibleScene topic style renderPrompts
      wantSet true)).drop k,
      r.sceneId ∉ ((env.filter (eligibleScene topic style renderPrompts
        wantSet true)).take k).map RetrySceneRow.sceneId := by
    intro r hrR hmem
    have hsplit : (env.filter (eligibleScene topic style renderPrompts
        wantSet true)).map RetrySceneRow.sceneId =
        ((env.filter (eligibleScene topic style renderPrompts wantSet
          true)).take k).map RetrySceneRow.sceneId ++
        ((env.filter (eligibleScene topic style renderPrompts wantSet
          true)).drop k).map RetrySceneRow.sceneId := by
      rw [← List.map_append, List.take_append_drop]
    have hdj := List.disjoint_of_nodup_append (hsplit ▸ hndL)
    exact hdj hmem (List.mem_map_of_mem RetrySceneRow.sceneId hrR)
  have hRfix : ∀ r ∈ (env.filter (eligibleScene topic style renderPrompts
      wantSet true)).drop k,
      genUpdate success genUrl
        (((env.filter (eligibleScene topic style renderPrompts wantSet
          true)).take k).map (taskOfScene topic style renderPrompts)) r = r := by
    intro r hrR
    apply genUpdate_eq_of_not_mem
    rw [List.filterMap_map, hcomp, List.filterMap_eq_map]
    exact hdisj r hrR
  have hRelig : ∀ r ∈ (env.filter (eligibleScene topic style renderPrompts
      wantSet true)).drop k,
      eligibleScene topic style renderPrompts
        (some (((env.filter (eligibleScene topic style renderPrompts wantSet
          true)).drop k).map RetrySceneRow.sceneId)) true r = true := by
    intro r hrR
    have hrL : r ∈ env.filter (eligibleScene topic style renderPrompts
        wantSet true) := (List.drop_sublist k _).subset hrR
    have hre : eligibleScene topic style renderPrompts wantSet true r = true :=
      List.of_mem_filter hrL
    have hid : r.sceneId ∈ ((env.filter (eligibleScene topic style
        renderPrompts wantSet true)).drop k).map RetrySceneRow.sceneId :=
      List.mem_map_of_mem RetrySceneRow.sceneId hrR
    simp only [eligibleScene] at hre
    have h12 := (Bool.and_eq_true_iff.mp hre).1
    have h2 := (Bool.and_eq_true_iff.mp h12).2
    have h3 := (Bool.and_eq_true_iff.mp hre).2
    simp at h2 h3
    rw [List.map_drop] at hid
    simp only [eligibleScene]
    simp [hid, h2, h3]
  rw [selectTasks_tasks_eq, hremIds, henv,
    rebuild_filter_eq topic style renderPrompts _ _ env
      (fun s => genUpdate_sceneId success genUrl _ s) hRsub hnd hRfix hRelig,
    ← hdrop]

/-- Conservation across the continuation chain: when every link runs with
`missingOnly = true` (the initial request's flag, and forced `true` on every
continuation) over a table with duplicate-free scene ids, the items processed
across the chain followed by the final remainder are exactly the initial
invocation's work list — nothing is lost or duplicated. -/
theorem runRetrySelfRequeueAux_conservation (success : Nat → Int → Bool)
    (genUrl : Int → String) (dur : Nat → Nat → Nat) (budget maxDepth : Nat)
    (topic : String) (style : StyleGuide)
    (renderPrompts : Int → Option String) :
    ∀ (fuel depth : Nat) (ws : Option (List Int)) (env : List RetrySceneRow),
      (env.map RetrySceneRow.sceneId).Nodup →
      (runRetrySelfRequeueAux success genUrl dur budget maxDepth topic style
          renderPrompts fuel depth ws true env).processed ++
        (runRetrySelfRequeueAux success genUrl dur budget maxDepth topic
          style renderPrompts fuel depth ws true env).remTasks =
        (selectTasks topic style renderPrompts ws true env).tasks := by
  intro fuel
  induction fuel with
  | zero =>
      intro depth ws env _
      simp [runRetrySelfRequeueAux, List.take_append_drop]
  | succ m ih =>
      intro depth ws env hnd
      by_cases hg : ((selectTasks topic style renderPrompts ws true
          env).tasks.drop (consumed (dur depth) budget (selectTasks topic
            style renderPrompts ws true env).tasks.length)).filterMap
          RetryTask.sceneId ≠ [] ∧ depth < maxDepth
      · have hnd' : ((applyGen (success depth) genUrl env
            ((selectTasks topic style renderPrompts ws true env).tasks.take
              (consumed (dur depth) budget (selectTasks topic style
                renderPrompts ws true env).tasks.length))).map
            RetrySceneRow.sceneId).Nodup := by
          rw [applyGen_map_sceneId]; exact hnd
        have hreb := rebuild_tasks_eq topic style renderPrompts
          (success depth) genUrl ws env
          (consumed (dur depth) budget (selectTasks topic style renderPrompts
            ws true env).tasks.length) hnd
        have hrec := ih (depth + 1)
          (some (((selectTasks topic style renderPrompts ws true
            env).tasks.drop (consumed (dur depth) budget (selectTasks topic
              style renderPrompts ws true env).tasks.length)).filterMap
            RetryTask.sceneId))
          (applyGen (success depth) genUrl env
            ((selectTasks topic style renderPrompts ws true env).tasks.take
              (consumed (dur depth) budget (selectTasks topic style
                renderPrompts ws true env).tasks.length))) hnd'
        rw [hreb] at hrec
        simp only [runRetrySelfRequeueAux]
        rw [if_pos hg]
        simp only [List.append_assoc]
        rw [hrec, List.take_append_drop]
      · simp only [runRetrySelfRequeueAux]
        rw [if_neg hg]
        simp [List.take_append_drop]

/-- The chain stops with a non-empty requeue id list only when the depth
bound has been hit exactly, provided the remaining depth budget `fuel` covers
the distance to `maxDepth`. -/
theorem runRetrySelfRequeueAux_stop (success : Nat → Int → Bool)
    (genUrl : Int → String) (dur : Nat → Nat → Nat) (budget maxDepth : Nat)
    (topic : String) (style : StyleGuide)
    (renderPrompts : Int → Option String) :
    ∀ (fuel depth : Nat) (ws : Option (List Int)) (mo : Bool)
      (env : List RetrySceneRow),
      maxDepth ≤ fuel + depth → depth ≤ maxDepth →
      ((runRetrySelfRequeueAux success genUrl dur budget maxDepth topic style
          renderPrompts fuel depth ws mo env).remIds = [] ∨
        (runRetrySelfRequeueAux success genUrl dur budget maxDepth topic
          style renderPrompts fuel depth ws mo env).finalDepth = maxDepth)
      := by
  intro fuel
  induction fuel with
  | zero =>
      intro depth ws mo env hfuel hdepth
      refine Or.inr ?_
      show depth = maxDepth
      omega
  | succ m ih =>
      intro depth ws mo env hfuel hdepth
      by_cases hg : ((selectTasks topic style renderPrompts ws mo
          env).tasks.drop (consumed (dur depth) budget (selectTasks topic
            style renderPrompts ws mo env).tasks.length)).filterMap
          RetryTask.sceneId ≠ [] ∧ depth < maxDepth
      · have hrec := ih (depth + 1)
          (some (((selectTasks topic style renderPrompts ws mo
            env).tasks.drop (consumed (dur depth) budget (selectTasks topic
              style renderPrompts ws mo env).tasks.length)).filterMap
            RetryTask.sceneId)) true
          (applyGen (success depth) genUrl env
            ((selectTasks topic style renderPrompts ws mo env).tasks.take
              (consumed (dur depth) budget (selectTasks topic style
                renderPrompts ws mo env).tasks.length)))
          (by omega) hg.2
        simp only [runRetrySelfRequeueAux]
        rw [if_pos hg]
        exact hrec
      · simp only [runRetrySelfRequeueAux]
        rw [if_neg hg]
        rcases not_and_or.mp hg with h | h
        · exact Or.inl (not_not.mp h)
        · refine Or.inr ?_
          show depth = maxDepth
          omega

/-- C7 counterexample: with an initial `missing_only = false` request over
two image-bearing scenes and a budget that fits one item, the chain processes
one item, requeues the other's scene id — and the continuation, whose
`missing_only` is hard-coded `true`, skips that scene because it already has
an image: the chain ends below the depth bound with an empty remainder,
having processed 1 of the 2 selected items, so an item is lost. -/
theorem retry_requeue_drops_item :
    (selectTasks "t" {} (fun _ => none) none false
      [{ sceneId := 1, imageUrl := some "u1", visualBrief := some "brief" },
       { sceneId := 2, imageUrl := some "u2",
         visualBrief := some "brief" }]).tasks.length = 2 ∧
    (runRetrySelfRequeue (fun _ _ => false) (fun _ => "gen-url")
      (fun _ _ => 100) 0 10 "t" {} (fun _ => none) 0 none false
      [{ sceneId := 1, imageUrl := some "u1", visualBrief := some "brief" },
       { sceneId := 2, imageUrl := some "u2",
         visualBrief := some "brief" }]).processed.length = 1 ∧
    (runRetrySelfRequeue (fun _ _ => false) (fun _ => "gen-url")
      (fun _ _ => 100) 0 10 "t" {} (fun _ => none) 0 none false
      [{ sceneId := 1, imageUrl := some "u1", visualBrief := some "brief" },
       { sceneId := 2, imageUrl := some "u2",
         visualBrief := some "brief" }]).remTasks = [] ∧
    (runRetrySelfRequeue (fun _ _ => false) (fun _ => "gen-url")
      (fun _ _ => 100) 0 10 "t" {} (fun _ => none) 0 none false
      [{ sceneId := 1, imageUrl := some "u1", visualBrief := some "brief" },
       { sceneId := 2, imageUrl := some "u2",
         visualBrief := some "brief" }]).remIds = [] ∧
    (runRetrySelfRequeue (fun _ _ => false) (fun _ => "gen-url")
      (fun _ _ => 100) 0 10 "t" {} (fun _ => none) 0 none false
      [{ sceneId := 1, imageUrl := some "u1", visualBrief := some "brief" },
       { sceneId := 2, imageUrl := some "u2",
         visualBrief := some "brief" }]).finalDepth = 1 := by
  refine ⟨rfl, rfl, rfl, rfl, rfl⟩

/-- C7 amended: each invocation splits its selected work list into a
budget-bounded processed prefix and the remainder, requeues iff items remain
and the depth is below the bound, and makes progress on any non-empty list;
the continuation re-derives its work list with the remainder's scene ids and
`missing_only` forced `true`, which rebuilds exactly the remainder whenever
the current link also ran with `missing_only = true` over duplicate-free
scene ids; hence a chain whose initial request uses `missing_only = true`
processes, with its final remainder appended, exactly its original work list
(nothing lost or duplicated); a chain stops with a non-empty requeue list
only at exactly `maxDepth`; and the depth bound defaults to 10 with cap 30
(the runtime budget defaults to 50000 ms with cap 110000 ms). -/
theorem retry_self_requeue_correct (success : Nat → Int → Bool)
    (genUrl : Int → String) (dur : Nat → Nat → Nat) (budget maxDepth : Nat)
    (topic : String) (style : StyleGuide)
    (renderPrompts : Int → Option String) (ws : Option (List Int))
    (mo : Bool) (env : List RetrySceneRow)
    (hnd : (env.map RetrySceneRow.sceneId).Nodup) :
    (∀ (d : Nat) (tasks : List RetryTask),
      (runRetryInBackground (dur d) budget maxDepth d tasks).processed ++
        (runRetryInBackground (dur d) budget maxDepth d tasks).remaining
          = tasks) ∧
    (∀ (d : Nat) (tasks : List RetryTask),
      (runRetryInBackground (dur d) budget maxDepth d tasks).requeue = true ↔
        ((runRetryInBackground (dur d) budget maxDepth d tasks).remaining
          ≠ [] ∧ d < maxDepth)) ∧
    (∀ (d : Nat) (tasks : List RetryTask), tasks = [] ∨
      (runRetryInBackground (dur d) budget maxDepth d tasks).processed
        ≠ []) ∧
    (∀ (d k : Nat),
      (selectTasks topic style renderPrompts
        (some (((selectTasks topic style renderPrompts ws true
          env).tasks.drop k).filterMap RetryTask.sceneId)) true
        (applyGen (success d) genUrl env
          ((selectTasks topic style renderPrompts ws true env).tasks.take
            k))).tasks =
      (selectTasks topic style renderPrompts ws true env).tasks.drop k) ∧
    ((runRetrySelfRequeue success genUrl dur budget maxDepth topic style
        renderPrompts 0 ws true env).processed ++
      (runRetrySelfRequeue success genUrl dur budget maxDepth topic style
        renderPrompts 0 ws true env).remTasks =
      (selectTasks topic style renderPrompts ws true env).tasks) ∧
    ((runRetrySelfRequeue success genUrl dur budget maxDepth topic style
        renderPrompts 0 ws mo env).remIds = [] ∨
      (runRetrySelfRequeue success genUrl dur budget maxDepth topic style
        renderPrompts 0 ws mo env).finalDepth = maxDepth) ∧
    retryMaxDepth none = 10 ∧ (∀ e, retryMaxDepth e ≤ 30) ∧
    retryMaxRuntimeMs none = 50000 ∧
    (∀ e, retryMaxRuntimeMs e ≤ 110000) := by
  refine ⟨?_, ?_, ?_, ?_, ?_, ?_, rfl, ?_, rfl, ?_⟩
  · intro d tasks; simp [runRetryInBackground]
  · intro d tasks; simp [runRetryInBackground]
  · intro d tasks
    cases tasks with
    | nil => exact Or.inl rfl
    | cons a l =>
        refine Or.inr ?_
        have hk : 0 < consumed (dur d) budget (a :: l).length :=
          consumed_pos _ _ _ (by simp)
        simp only [runRetryInBackground]
        cases hke : consumed (dur d) budget (a :: l).length with
        | zero => omega
        | succ k2 => simp [hke]
  · intro d k
    exact rebuild_tasks_eq topic style renderPrompts (success d) genUrl ws
      env k hnd
  · exact runRetrySelfRequeueAux_conservation success genUrl dur budget
      maxDepth topic style renderPrompts (maxDepth - 0) 0 ws env hnd
  · exact runRetrySelfRequeueAux_stop success genUrl dur budget maxDepth
      topic style renderPrompts (maxDepth - 0) 0 ws mo env (by omega)
      (Nat.zero_le _)
  · intro e; rcases e with _ | x <;> simp [retryMaxDepth, jsNumberOr]
  · intro e; rcases e with _ | x <;> simp [retryMaxRuntimeMs, jsNumberOr]

/-- Witness for C7 (amended): a `missing_only = true` chain over two
image-less scenes with a one-item budget spans two continuation links and
processes exactly its original two-item work list. -/
theorem retry_self_requeue_correct_witness :
    (runRetrySelfRequeue (fun _ _ => true) (fun _ => "gen-url")
      (fun _ _ => 100) 0 10 "t" {} (fun _ => none) 0 none true
      [{ sceneId := 1, visualBrief := some "brief" },
       { sceneId := 2, visualBrief := some "brief" }]).processed ++
    (runRetrySelfRequeue (fun _ _ => true) (fun _ => "gen-url")
      (fun _ _ => 100) 0 10 "t" {} (fun _ => none) 0 none true
      [{ sceneId := 1, visualBrief := some "brief" },
       { sceneId := 2, visualBrief := some "brief" }]).remTasks =
    (selectTasks "t" {} (fun _ => none) none true
      [{ sceneId := 1, visualBrief := some "brief" },
       { sceneId := 2, visualBrief := some "brief" }]).tasks :=
  (retry_self_requeue_correct (fun _ _ => true) (fun _ => "gen-url")
    (fun _ _ => 100) 0 10 "t" {} (fun _ => none) none true
    [{ sceneId := 1, visualBrief := some "brief" },
     { sceneId := 2, visualBrief := some "brief" }]
    (by decide)).2.2.2.2.1

/-- C9: for a validated RetryImages request the immediate 202 response
reports `attempted` as the number of eligible tasks selected from the scene
rows before any generation work runs, and reports `succeeded = 0` and
`failed = 0` — the response does not depend on the duration oracle or depth
parameters that drive the background generations. -/
theorem retry_images_immediate_response (jobIdRaw topic : String)
    (style : StyleGuide) (renderPrompts : Int → Option String)
    (sceneIdsReq : Option (List Int)) (missingOnlyReq : Option Bool)
    (scenes : List RetrySceneRow) (dur : Nat → Nat)
    (budget maxDepth depth : Nat) (hjob : jsTrim jobIdRaw ≠ "") :
    (retryImagesHandler jobIdRaw topic style renderPrompts sceneIdsReq
        missingOnlyReq scenes dur budget maxDepth depth).toOption.map
        (fun r => (r.1, r.2.1)) =
      some
        ({ attempted := (selectTasks topic style renderPrompts sceneIdsReq
             (missingOnlyReq ≠ some false) scenes).tasks.length,
           succeeded := 0, failed := 0,
           skipped := (selectTasks topic style renderPrompts sceneIdsReq
             (missingOnlyReq ≠ some false) scenes).skipped,
           accepted := true }, 202) := by
  unfold retryImagesHandler
  rw [if_neg hjob]
  rfl

/-- Witness for C9: a job with one image-less scene and one image-bearing
scene yields `attempted = 1`, `skipped = 1`, zero succeeded/failed, even
though the background oracle would process nothing (zero budget). -/
theorem retry_images_immediate_response_witness :
    (retryImagesHandler "job-9" "space" {} (fun _ => none) none none
        [{ sceneId := 1 }, { sceneId := 2, imageUrl := some "u" }]
        (fun _ => 100) 0 10 0).toOption.map (fun r => (r.1, r.2.1)) =
      some ({ attempted := 1, succeeded := 0, failed := 0, skipped := 1,
              accepted := true }, 202) :=
  retry_images_immediate_response "job-9" "space" {} (fun _ => none) none
    none [{ sceneId := 1 }, { sceneId := 2, imageUrl := some "u" }]
    (fun _ => 100) 0 10 0 (by decide)

/-- C10: a DeleteJob request with a non-empty (after trim) job id is answered
202 `accepted` immediately — the response is computed from the payload alone,
for any store, including one holding no such job; the background deletion
removes the job row and its cascaded scene/asset rows, and a failing storage
cleanup yields exactly the same final store as a succeeding one. -/
theorem delete_job_accepts_and_cascades (jobIdRaw : String) (st : Store)
    (storageFails : Bool) (hjob : jsTrim jobIdRaw ≠ "") :
    deleteJobHandler jobIdRaw st storageFails =
      Except.ok ({ jobId := jsTrim jobIdRaw, accepted := true }, 202,
        deleteJobRow st (jsTrim jobIdRaw)) ∧
    (jsTrim jobIdRaw) ∉
      (runDeleteJob st (jsTrim jobIdRaw) storageFails).jobs ∧
    (∀ p ∈ (runDeleteJob st (jsTrim jobIdRaw) storageFails).scenes,
      p.1 ≠ jsTrim jobIdRaw) ∧
    (∀ p ∈ (runDeleteJob st (jsTrim jobIdRaw) storageFails).assets,
      p.1 ≠ jsTrim jobIdRaw) ∧
    runDeleteJob st (jsTrim jobIdRaw) true =
      runDeleteJob st (jsTrim jobIdRaw) false := by
  refine ⟨?_, ?_, ?_, ?_, rfl⟩
  · unfold deleteJobHandler
    rw [if_neg hjob]
    cases storageFails <;> rfl
  · intro hmem
    cases storageFails <;>
      simp [runDeleteJob, deleteStorageObjects, deleteJobRow,
        List.mem_filter] at hmem
  · intro p hp
    cases storageFails <;>
      (simp [runDeleteJob, deleteStorageObjects, deleteJobRow,
        List.mem_filter] at hp; exact hp.2)
  · intro p hp
    cases storageFails <;>
      (simp [runDeleteJob, deleteStorageObjects, deleteJobRow,
        List.mem_filter] at hp; exact hp.2)

/-- Witness for C10: deleting a job id that is absent from the store is still
answered 202 accepted, with the storage cleanup failing. -/
theorem delete_job_accepts_and_cascades_witness :
    deleteJobHandler "ghost-job"
        { jobs := ["other"], scenes := [("other", 1)], assets := [] } true =
      Except.ok ({ jobId := jsTrim "ghost-job", accepted := true }, 202,
        deleteJobRow
          { jobs := ["other"], scenes := [("other", 1)], assets := [] }
          (jsTrim "ghost-job")) :=
  (delete_job_accepts_and_cascades "ghost-job"
    { jobs := ["other"], scenes := [("other", 1)], assets := [] } true
    (by decide)).1

end YTG
